import Mathlib

/-!
Shallow embedding of the Azure Monitor trace exporter
(`factory.go`, `traceexporter.go` of the azuremonitorexporter package),
together with proofs of the spec's claims about the consume path, the
factory's lazy transport-channel construction, and shutdown.

Modelling conventions:
* machine integers are `Nat`/`Int` (durations in nanoseconds);
* the side effects of a call (envelopes handed to the transport's `Send`,
  steps taken by `Shutdown`) are returned as explicit lists, in the order
  the code performs them;
* the envelope builder `spanToEnvelope` and the batch walker `Accept` live
  in files of the repository outside this excerpt; `spanToEnvelope` is
  therefore kept abstract (a parameter `build`, pure as the spec demands)
  and `Accept` is modelled from the spec, see its doc comment.
-/

/-- Log verbosity levels of the host's structured (zap) logger. -/
inductive LogLevel where
  | debug
  | info
  | warn
  | error
deriving DecidableEq

/-- Model of the host's `zap.Logger`: all the excerpt observes of it is
whether a `Check(zap.DebugLevel, ...)` returns a non-nil entry, i.e. whether
debug verbosity is enabled. -/
structure Logger where
  debugEnabled : Bool
deriving DecidableEq

/-- One structured log entry produced through the logger. -/
structure LogEntry where
  level : LogLevel
  msg : String
deriving DecidableEq

/-- The exporter's `Config` struct: instrumentation key, ingestion endpoint,
transport batching knobs, and the shutdown drain timeout (durations in
nanoseconds, mirroring Go's `time.Duration`). -/
structure Config where
  typeVal : String
  nameVal : String
  instrumentationKey : String
  endpoint : String
  maxBatchSize : Nat
  maxBatchInterval : Nat
  shutdownTimeout : Nat
deriving DecidableEq

/-- The value of the "type" key in configuration. -/
def typeStr : String := "azuremonitor"

/-- Default ingestion endpoint. -/
def defaultEndpoint : String := "https://dc.services.visualstudio.com/v2/track"

/-- `createDefaultConfig` from `factory.go`. -/
def createDefaultConfig : Config :=
  { typeVal := typeStr
    nameVal := typeStr
    instrumentationKey := ""
    endpoint := defaultEndpoint
    maxBatchSize := 1024
    maxBatchInterval := 10 * 1000000000
    shutdownTimeout := 5 * 1000000000 }

/-- `errUnexpectedConfigurationType` from `factory.go`. -/
def errUnexpectedConfigurationType : String :=
  "failed to cast configuration to Azure Monitor Config"

/-- Resource: attribute set describing the originating service/host. -/
structure Resource where
  attributes : List (String × String)
deriving DecidableEq

/-- Instrumentation library: (name, version) pair. -/
structure InstrumentationLibrary where
  name : String
  version : String
deriving DecidableEq

/-- Span kind, per the trace data model. -/
inductive SpanKind where
  | server
  | client
  | producer
  | consumer
  | internal
deriving DecidableEq

/-- A span, with the attributes the excerpt's claims touch; the full set of
span attributes only feeds the (abstract) envelope builder. -/
structure Span where
  name : String
  kind : SpanKind
deriving DecidableEq

/-- One resource group's instrumentation-library group: a library and its
ordered spans. -/
structure InstrumentationLibrarySpans where
  library : InstrumentationLibrary
  spans : List Span
deriving DecidableEq

/-- One resource group of a trace batch: a resource and its ordered
instrumentation-library groups. -/
structure ResourceSpans where
  resource : Resource
  libs : List InstrumentationLibrarySpans
deriving DecidableEq

/-- A trace batch (`pdata.Traces`): ordered resource groups, each with
ordered library groups, each with ordered spans. -/
structure Traces where
  resourceSpans : List ResourceSpans
deriving DecidableEq

/-- `pdata.Traces.SpanCount`: total number of spans in the batch, summed
over the tree. -/
def Traces.SpanCount (t : Traces) : Nat :=
  (t.resourceSpans.map
    (fun rs => (rs.libs.map (fun ils => ils.spans.length)).sum)).sum

/-- The (resource, library, span) triples of a batch, in input order:
resource groups in order, library groups in order within each resource,
spans in order within each library. -/
def Traces.triples (t : Traces) :
    List (Resource × InstrumentationLibrary × Span) :=
  t.resourceSpans.flatMap (fun rs =>
    rs.libs.flatMap (fun ils =>
      ils.spans.map (fun s => (rs.resource, ils.library, s))))

/-- A wire envelope (`contracts.Envelope`); the excerpt reads and writes only
the `IKey` field, the rest of the envelope is the builder's opaque payload. -/
structure Envelope where
  IKey : String
  payload : String
deriving DecidableEq

/-- An error carried through `consumererror`: the message plus whether the
permanent marker is set. -/
structure ConsumerError where
  permanent : Bool
  msg : String
deriving DecidableEq

namespace consumererror

/-- `consumererror.Permanent`: wraps an error, marking it as one the host's
queue/retry layer must not retry. -/
def Permanent (msg : String) : ConsumerError :=
  { permanent := true, msg := msg }

end consumererror

/-- The type of the envelope builder `spanToEnvelope`. The builder itself is
in a repository file outside this excerpt; per the spec it is a pure
function `build(resource, library, span) → envelope | permanent-error`, so
the development is parametric in it. -/
abbrev Builder :=
  Resource → InstrumentationLibrary → Span → Except String Envelope

/-- Shorthand for a (resource, library, span) triple. -/
abbrev Triple := Resource × InstrumentationLibrary × Span

/-- The transport channel the factory constructs: the appinsights in-memory
channel, as configured by `getTransportChannel` (telemetry configuration
fields), together with whether the diagnostics message listener was attached
at its construction and, if so, the logger it forwards to. -/
structure TransportChannel where
  instrumentationKey : String
  endpointUrl : String
  maxBatchSize : Nat
  maxBatchInterval : Nat
  diagnosticsListener : Option Logger
deriving DecidableEq

/-- The trace exporter struct from `traceexporter.go`. -/
structure traceExporter where
  config : Config
  transportChannel : TransportChannel
  logger : Logger
  shutdownTimeout : Nat
deriving DecidableEq

/-- `newTraceExporter`: binds config, transport channel and logger; the
shutdown timeout is taken from the config. (The exporterhelper wrapping
adds no observable state.) -/
def newTraceExporter (config : Config) (transportChannel : TransportChannel)
    (logger : Logger) : traceExporter :=
  { config := config
    transportChannel := transportChannel
    logger := logger
    shutdownTimeout := config.shutdownTimeout }

/-- The visitor state from `traceexporter.go`: processed count, first error,
and the exporter it works for. -/
structure traceVisitor where
  processed : Nat
  err : Option ConsumerError
  exporter : traceExporter
deriving DecidableEq

/-- `traceVisitor.visit`, called for each (resource, library, span) triple:
builds the envelope (short-circuiting with a permanent error on failure),
stamps the instrumentation key onto it, sends it (the returned list is the
`Send` calls this step performs, in order) and counts it as processed.
The returned `Bool` is the `ok` continuation flag. -/
def traceVisitor.visit (build : Builder) (v : traceVisitor)
    (resource : Resource) (instrumentationLibrary : InstrumentationLibrary)
    (span : Span) : traceVisitor × List Envelope × Bool :=
  match build resource instrumentationLibrary span with
  | Except.error e =>
      ({ v with err := some (consumererror.Permanent e) }, [], false)
  | Except.ok envelope =>
      let envelope := { envelope with IKey := v.exporter.config.instrumentationKey }
      ({ v with processed := v.processed + 1 }, [envelope], true)

/-- Walk of a triple list by the visitor: visits each triple in order,
collecting the `Send` calls; a `false` continuation flag short-circuits the
remainder. -/
def acceptGo (build : Builder) :
    traceVisitor → List Triple → traceVisitor × List Envelope
  | v, [] => (v, [])
  | v, tr :: rest =>
      let step := traceVisitor.visit build v tr.1 tr.2.1 tr.2.2
      if step.2.2 then
        let next := acceptGo build step.1 rest
        (next.1, step.2.1 ++ next.2)
      else
        (step.1, step.2.1)

/-- Modelled from the spec: `Accept` (the batch walker, in a repository file
outside this excerpt) "visits every (resource, library, span) triple in
input order; invokes `visitor.visit(resource, library, span) → continue?`.
A `false` return short-circuits the remainder of the batch." -/
def Accept (build : Builder) (traceData : Traces) (v : traceVisitor) :
    traceVisitor × List Envelope :=
  acceptGo build v traceData.triples

/-- `traceExporter.onTraceData` (the `consume` entry point): returns the
dropped-span count (an `int` in Go, hence `Int`), the recorded first error,
and the list of envelopes handed to the transport's `Send`, in order. -/
def traceExporter.onTraceData (build : Builder) (exporter : traceExporter)
    (traceData : Traces) : Int × Option ConsumerError × List Envelope :=
  let spanCount := traceData.SpanCount
  if spanCount = 0 then
    (0, none, [])
  else
    let out := Accept build traceData
      { processed := 0, err := none, exporter := exporter }
    ((spanCount : Int) - out.1.processed, out.1.err, out.2)

/-- One observable step of `traceExporter.Shutdown`. -/
inductive ShutdownStep where
  | closeChannel (timeout : Nat)
  | awaitSignal
deriving DecidableEq

/-- `traceExporter.Shutdown`: closes the transport channel with the
configured shutdown timeout, blocks receiving on the returned completion
signal, then returns nil. The first component is the ordered step trace,
the second the returned error. -/
def traceExporter.Shutdown (exporter : traceExporter) :
    List ShutdownStep × Option String :=
  ([ShutdownStep.closeChannel exporter.shutdownTimeout,
    ShutdownStep.awaitSignal], none)

/-- The factory struct from `factory.go`: it caches the transport channel. -/
structure factory where
  tChannel : Option TransportChannel
deriving DecidableEq

/-- Construction of the transport channel inside `getTransportChannel`: a
telemetry configuration is built from the exporter config (key, endpoint,
batching knobs) and the channel taken from the resulting client; the
diagnostics message listener is attached only when the logger has debug
verbosity enabled. -/
def mkTransportChannel (exporterConfig : Config) (logger : Logger) :
    TransportChannel :=
  { instrumentationKey := exporterConfig.instrumentationKey
    endpointUrl := exporterConfig.endpoint
    maxBatchSize := exporterConfig.maxBatchSize
    maxBatchInterval := exporterConfig.maxBatchInterval
    diagnosticsListener := if logger.debugEnabled then some logger else none }

/-- `factory.getTransportChannel`: guarded lazy init. If a channel is cached
it is returned and the factory is unchanged; otherwise a channel is
constructed from the given config and logger and cached. Returns the channel
and the updated factory state. -/
def factory.getTransportChannel (f : factory) (exporterConfig : Config)
    (logger : Logger) : TransportChannel × factory :=
  match f.tChannel with
  | some c => (c, f)
  | none =>
      let c := mkTransportChannel exporterConfig logger
      (c, { tChannel := some c })

/-- The `configmodels.Exporter` interface value handed to
`createTraceExporter`: either the exporter's own `*Config` or a
configuration of some other exporter type. -/
inductive ExporterConfig where
  | azureMonitor (c : Config)
  | other (typeName : String)
deriving DecidableEq

/-- `factory.createTraceExporter`: fails with the configuration-type error
when the supplied config is not the exporter's own `*Config`; otherwise
obtains the (lazily constructed, cached) transport channel and builds the
exporter. Returns the updated factory state and the result. -/
def factory.createTraceExporter (f : factory) (logger : Logger)
    (cfg : ExporterConfig) : factory × Except String traceExporter :=
  match cfg with
  | ExporterConfig.other _ => (f, Except.error errUnexpectedConfigurationType)
  | ExporterConfig.azureMonitor exporterConfig =>
      let out := f.getTransportChannel exporterConfig logger
      (out.2, Except.ok (newTraceExporter exporterConfig out.1 logger))

/-- The callback attached by `NewDiagnosticsMessageListener`: for a message,
it logs the message at debug level on the captured logger and returns nil. -/
def diagnosticsMessageHandler (msg : String) : LogEntry × Option String :=
  ({ level := LogLevel.debug, msg := msg }, none)

/-- The per-triple stamped result of building and key-stamping: the envelope
`visit` would send for this triple when the build succeeds. (The error
branch is never reached where this function is used: it is only mapped over
triples on which the builder is known to succeed.) -/
def buildStamped (build : Builder) (key : String) (tr : Triple) : Envelope :=
  match build tr.1 tr.2.1 tr.2.2 with
  | Except.ok e => { e with IKey := key }
  | Except.error _ => { IKey := key, payload := "" }

/-! ### Helper lemmas -/

/-- The span count of a batch equals the number of its triples. -/
lemma Traces.spanCount_eq_triples_length (t : Traces) :
    t.SpanCount = t.triples.length := by
  simp [Traces.SpanCount, Traces.triples, List.length_flatMap,
    Function.comp_def]

/-- Walking a triple list on which the builder always succeeds processes
every triple, leaves the error and exporter untouched, and sends one stamped
envelope per triple, in order. -/
lemma acceptGo_all_ok (build : Builder) (v : traceVisitor) (l : List Triple)
    (h : ∀ tr ∈ l, ∃ env, build tr.1 tr.2.1 tr.2.2 = Except.ok env) :
    acceptGo build v l =
      ({ v with processed := v.processed + l.length },
       l.map (buildStamped build v.exporter.config.instrumentationKey)) := by
  induction l generalizing v with
  | nil => simp [acceptGo]
  | cons tr rest ih =>
      obtain ⟨env, henv⟩ := h tr (by simp)
      have hrest : ∀ x ∈ rest, ∃ e, build x.1 x.2.1 x.2.2 = Except.ok e :=
        fun x hx => h x (by simp [hx])
      simp [acceptGo, traceVisitor.visit, henv,
        ih { v with processed := v.processed + 1 } hrest,
        buildStamped, traceVisitor.mk.injEq]
      omega

/-- Walking `pre ++ tr :: post` where the builder succeeds on all of `pre`
and fails on `tr`: exactly the `pre` triples are processed and sent, the
failure is recorded as a permanent error, and the walk short-circuits. -/
lemma acceptGo_first_fail (build : Builder) (v : traceVisitor)
    (pre post : List Triple) (tr : Triple) (e : String)
    (hpre : ∀ x ∈ pre, ∃ env, build x.1 x.2.1 x.2.2 = Except.ok env)
    (hfail : build tr.1 tr.2.1 tr.2.2 = Except.error e) :
    acceptGo build v (pre ++ tr :: post) =
      ({ v with processed := v.processed + pre.length,
                err := some (consumererror.Permanent e) },
       pre.map (buildStamped build v.exporter.config.instrumentationKey)) := by
  induction pre generalizing v with
  | nil => simp [acceptGo, traceVisitor.visit, hfail]
  | cons x rest ih =>
      obtain ⟨env, henv⟩ := hpre x (by simp)
      have hrest : ∀ y ∈ rest, ∃ e2, build y.1 y.2.1 y.2.2 = Except.ok e2 :=
        fun y hy => hpre y (by simp [hy])
      simp [acceptGo, traceVisitor.visit, henv,
        ih { v with processed := v.processed + 1 } hrest,
        buildStamped, traceVisitor.mk.injEq]
      omega

/-- Every envelope a walk sends carries the instrumentation key of the
visitor's exporter configuration. -/
lemma acceptGo_IKey (build : Builder) (v : traceVisitor) (l : List Triple) :
    ∀ env ∈ (acceptGo build v l).2,
      env.IKey = v.exporter.config.instrumentationKey := by
  induction l generalizing v with
  | nil => simp [acceptGo]
  | cons tr rest ih =>
      intro env henv
      cases hb : build tr.1 tr.2.1 tr.2.2 with
      | error e => simp [acceptGo, traceVisitor.visit, hb] at henv
      | ok env0 =>
          simp [acceptGo, traceVisitor.visit, hb] at henv
          rcases henv with henv | henv
          · rw [henv]
          · exact ih { v with processed := v.processed + 1 } env henv

/-- The walk processes at most as many spans as there are triples. -/
lemma acceptGo_processed_le (build : Builder) (v : traceVisitor)
    (l : List Triple) :
    (acceptGo build v l).1.processed ≤ v.processed + l.length := by
  induction l generalizing v with
  | nil => simp [acceptGo]
  | cons tr rest ih =>
      cases hb : build tr.1 tr.2.1 tr.2.2 with
      | error e => simp [acceptGo, traceVisitor.visit, hb]
      | ok env0 =>
          have h2 := ih { v with processed := v.processed + 1 }
          simp at h2
          simp [acceptGo, traceVisitor.visit, hb]
          omega

/-- A successful `Except` result yields a value. -/
lemma except_isOk_exists {ε α : Type} {x : Except ε α} (h : x.isOk = true) :
    ∃ a, x = Except.ok a := by
  cases x with
  | ok a => exact ⟨a, rfl⟩
  | error e => exact nomatch h

/-! ### Concrete example inputs (used by witnesses and counterexamples) -/

/-- Example logger without debug verbosity. -/
def exLogger : Logger := { debugEnabled := false }

/-- Example exporter configuration with a non-empty instrumentation key. -/
def exConfig : Config :=
  { createDefaultConfig with instrumentationKey := "ikey-1234" }

/-- Example transport channel built from `exConfig`. -/
def exChannel : TransportChannel := mkTransportChannel exConfig exLogger

/-- Example exporter over `exConfig` and `exChannel`. -/
def exExporter : traceExporter := newTraceExporter exConfig exChannel exLogger

/-- Example builder: fails (negative duration) on spans named "bad",
succeeds otherwise with the span name as payload. -/
def exBuild : Builder := fun _ _ s =>
  if s.name = "bad" then Except.error "span duration is negative"
  else Except.ok { IKey := "", payload := s.name }

/-- Example resource. -/
def exResource : Resource := { attributes := [("service.name", "svc")] }

/-- Example instrumentation library. -/
def exLibrary : InstrumentationLibrary := { name := "lib", version := "1.0" }

/-- Example span of the given name. -/
def mkSpan (n : String) : Span := { name := n, kind := SpanKind.server }

/-- Batch of the given spans under one resource and one library. -/
def mkBatch (spans : List Span) : Traces :=
  { resourceSpans :=
      [{ resource := exResource
         libs := [{ library := exLibrary, spans := spans }] }] }

/-- Empty batch. -/
def exTraces0 : Traces := { resourceSpans := [] }

/-- Two-span batch on which `exBuild` always succeeds. -/
def exTraces2 : Traces := mkBatch [mkSpan "a", mkSpan "b"]

/-- Three-span batch whose second span makes `exBuild` fail. -/
def exTraces3 : Traces := mkBatch [mkSpan "a", mkSpan "bad", mkSpan "c"]

/-! ### The claims -/

/-- C1: for a batch whose first translation failure occurs at the k-th span
(0-indexed) in traversal order — here k = `pre.length`, the failing triple
`tr` being preceded by exactly the triples of `pre`, on all of which the
builder succeeds — consume performs exactly k `Send` calls (the stamped
envelopes of the preceding spans, in order), records the first error wrapped
as a permanent error, short-circuits, and returns
dropped = span-count − k. -/
theorem claim1_consume_first_failure (build : Builder)
    (exporter : traceExporter) (traceData : Traces)
    (pre post : List Triple) (tr : Triple) (e : String)
    (hsplit : traceData.triples = pre ++ tr :: post)
    (hpre : ∀ x ∈ pre, (build x.1 x.2.1 x.2.2).isOk = true)
    (hfail : build tr.1 tr.2.1 tr.2.2 = Except.error e) :
    exporter.onTraceData build traceData =
      ((traceData.SpanCount : Int) - pre.length,
       some (consumererror.Permanent e),
       pre.map (buildStamped build exporter.config.instrumentationKey)) ∧
    (pre.map (buildStamped build exporter.config.instrumentationKey)).length
      = pre.length ∧
    (consumererror.Permanent e).permanent = true := by
  have hsc := traceData.spanCount_eq_triples_length
  have h0 : ¬ traceData.SpanCount = 0 := by
    rw [hsc, hsplit]; simp
  have hwalk := acceptGo_first_fail build
    { processed := 0, err := none, exporter := exporter } pre post tr e
    (fun x hx => except_isOk_exists (hpre x hx)) hfail
  simp [traceExporter.onTraceData, h0, Accept, hsplit, hwalk,
    consumererror.Permanent]

/-- C2: when the builder succeeds on every span of the batch, consume
returns dropped = 0 and no error, and the transport observes exactly
span-count `Send` calls — the stamped envelopes, in batch-input order. -/
theorem claim2_consume_all_ok (build : Builder) (exporter : traceExporter)
    (traceData : Traces)
    (h : ∀ x ∈ traceData.triples, (build x.1 x.2.1 x.2.2).isOk = true) :
    exporter.onTraceData build traceData =
      (0, none,
       traceData.triples.map
         (buildStamped build exporter.config.instrumentationKey)) ∧
    (traceData.triples.map
       (buildStamped build exporter.config.instrumentationKey)).length
      = traceData.SpanCount := by
  have hsc := traceData.spanCount_eq_triples_length
  by_cases h0 : traceData.SpanCount = 0
  · have hnil : traceData.triples = [] := by
      rw [hsc] at h0; exact List.length_eq_zero.mp h0
    simp [traceExporter.onTraceData, h0, hnil]
  · have hall := acceptGo_all_ok build
      { processed := 0, err := none, exporter := exporter } traceData.triples
      (fun x hx => except_isOk_exists (h x hx))
    simp [traceExporter.onTraceData, h0, Accept, hall, hsc]

/-- C4: for every batch, the dropped count returned by consume lies between
0 and the batch's span count. -/
theorem claim4_dropped_bounds (build : Builder) (exporter : traceExporter)
    (traceData : Traces) :
    0 ≤ (exporter.onTraceData build traceData).1 ∧
    (exporter.onTraceData build traceData).1 ≤ (traceData.SpanCount : Int) := by
  by_cases h0 : traceData.SpanCount = 0
  · simp [traceExporter.onTraceData, h0]
  · have hle := acceptGo_processed_le build
      { processed := 0, err := none, exporter := exporter } traceData.triples
    simp at hle
    have hsc := traceData.spanCount_eq_triples_length
    simp [traceExporter.onTraceData, h0, Accept]
    omega

/-- C5: consuming a batch with zero spans returns dropped = 0 and no error,
and performs no `Send` call on the transport channel. -/
theorem claim5_empty_batch (build : Builder) (exporter : traceExporter)
    (traceData : Traces) (h : traceData.SpanCount = 0) :
    exporter.onTraceData build traceData = (0, none, []) := by
  simp [traceExporter.onTraceData, h]

/-- Claim C1 witness: on the three-span batch whose second span fails to
translate, consume sends exactly one envelope, reports the permanent error,
and drops two spans. -/
theorem claim1_consume_first_failure_witness :
    exTraces3.triples =
      [(exResource, exLibrary, mkSpan "a")] ++
        (exResource, exLibrary, mkSpan "bad") ::
          [(exResource, exLibrary, mkSpan "c")] ∧
    exExporter.onTraceData exBuild exTraces3 =
      (2, some { permanent := true, msg := "span duration is negative" },
       [{ IKey := "ikey-1234", payload := "a" }]) :=
  ⟨by decide,
   ((claim1_consume_first_failure exBuild exExporter exTraces3
      [(exResource, exLibrary, mkSpan "a")]
      [(exResource, exLibrary, mkSpan "c")]
      (exResource, exLibrary, mkSpan "bad")
      "span duration is negative"
      (by decide) (by decide) (by simp [exBuild, mkSpan])).1).trans
     (by decide)⟩

/-- Claim C2 witness: on the two-span all-successful batch, consume drops
nothing, reports no error, and sends both stamped envelopes in order. -/
theorem claim2_consume_all_ok_witness :
    (∀ x ∈ exTraces2.triples, (exBuild x.1 x.2.1 x.2.2).isOk = true) ∧
    exExporter.onTraceData exBuild exTraces2 =
      (0, none, [{ IKey := "ikey-1234", payload := "a" },
                 { IKey := "ikey-1234", payload := "b" }]) :=
  ⟨by decide,
   ((claim2_consume_all_ok exBuild exExporter exTraces2 (by decide)).1).trans
     (by decide)⟩

/-- Claim C5 witness: consuming the empty batch returns (0, nil) with no
sends. -/
theorem claim5_empty_batch_witness :
    exTraces0.SpanCount = 0 ∧
    exExporter.onTraceData exBuild exTraces0 = (0, none, []) :=
  ⟨by decide, claim5_empty_batch exBuild exExporter exTraces0 (by decide)⟩

/-- Exporter whose configuration carries an empty instrumentation key (the
default config's key), as nothing at create-time rejects it. -/
def exEmptyKeyExporter : traceExporter :=
  newTraceExporter createDefaultConfig
    (mkTransportChannel createDefaultConfig exLogger) exLogger

/-- Claim C3 counterexample: with an empty configured instrumentation key, a
successfully translated span is handed to Send with an empty
instrumentation-key field, so the non-emptiness half of the claim fails. -/
theorem claim3_counterexample :
    ∃ env ∈ (exEmptyKeyExporter.onTraceData exBuild
        (mkBatch [mkSpan "a"])).2.2,
      env.IKey = "" := by decide

/-- Claim C3 (amended): every envelope handed to the transport's Send during
a consume call has its instrumentation-key field equal to the exporter
configuration's instrumentation-key; in particular it is non-empty whenever
the configured key is non-empty. -/
theorem claim3_key_stamping (build : Builder) (exporter : traceExporter)
    (traceData : Traces) (env : Envelope)
    (henv : env ∈ (exporter.onTraceData build traceData).2.2) :
    env.IKey = exporter.config.instrumentationKey ∧
    (exporter.config.instrumentationKey ≠ "" → env.IKey ≠ "") := by
  have hkey : env.IKey = exporter.config.instrumentationKey := by
    by_cases h0 : traceData.SpanCount = 0
    · simp [traceExporter.onTraceData, h0] at henv
    · simp [traceExporter.onTraceData, h0, Accept] at henv
      exact acceptGo_IKey build
        { processed := 0, err := none, exporter := exporter }
        traceData.triples env henv
  exact ⟨hkey, fun hne => by rw [hkey]; exact hne⟩

/-- Claim C3 witness: the stamped envelope sent for a one-span batch under
the non-empty example key carries exactly that key. -/
theorem claim3_key_stamping_witness :
    ({ IKey := "ikey-1234", payload := "a" } : Envelope) ∈
      (exExporter.onTraceData exBuild (mkBatch [mkSpan "a"])).2.2 ∧
    (({ IKey := "ikey-1234", payload := "a" } : Envelope).IKey =
        exExporter.config.instrumentationKey ∧
     (exExporter.config.instrumentationKey ≠ "" →
        ({ IKey := "ikey-1234", payload := "a" } : Envelope).IKey ≠ "")) :=
  ⟨by decide,
   claim3_key_stamping exBuild exExporter (mkBatch [mkSpan "a"])
     { IKey := "ikey-1234", payload := "a" } (by decide)⟩

/-- Claim C6: `createTraceExporter` returns the configuration-type error
(and no exporter) exactly when the supplied configuration is not the
exporter's own config type; on the expected type it obtains the factory's
shared transport channel (updating the factory's cache state accordingly)
and constructs the exporter bound to that channel, the config and the
logger. -/
theorem claim6_createTraceExporter (f : factory) (logger : Logger)
    (cfg : ExporterConfig) :
    match cfg with
    | ExporterConfig.azureMonitor c =>
        f.createTraceExporter logger cfg =
          ((f.getTransportChannel c logger).2,
           Except.ok
             (newTraceExporter c (f.getTransportChannel c logger).1 logger))
    | ExporterConfig.other _ =>
        f.createTraceExporter logger cfg =
          (f, Except.error errUnexpectedConfigurationType) := by
  cases cfg with
  | azureMonitor c => rfl
  | other n => rfl

/-- Claim C7: `Shutdown` closes the transport channel with the configured
shutdown-timeout, blocks on the returned completion signal, and then returns
nil unconditionally, whatever transport channel the exporter was built
over. -/
theorem claim7_shutdown (config : Config) (tc : TransportChannel)
    (logger : Logger) :
    (newTraceExporter config tc logger).Shutdown =
      ([ShutdownStep.closeChannel config.shutdownTimeout,
        ShutdownStep.awaitSignal], none) := rfl

/-- Claim C8: per factory the transport channel is constructed at most
once — the first `createTraceExporter` call on a fresh factory constructs
and caches it, and a second call (any config, any logger) leaves the factory
unchanged and yields an exporter bound to the very same channel. -/
theorem claim8_channel_once (c c' : Config) (lg lg' : Logger) :
    (((factory.mk none).createTraceExporter lg
        (ExporterConfig.azureMonitor c)).1.tChannel =
      some (mkTransportChannel c lg)) ∧
    ((((factory.mk none).createTraceExporter lg
        (ExporterConfig.azureMonitor c)).1.createTraceExporter lg'
        (ExporterConfig.azureMonitor c')).1 =
      ((factory.mk none).createTraceExporter lg
        (ExporterConfig.azureMonitor c)).1) ∧
    ∃ e1 e2,
      ((factory.mk none).createTraceExporter lg
        (ExporterConfig.azureMonitor c)).2 = Except.ok e1 ∧
      ((((factory.mk none).createTraceExporter lg
          (ExporterConfig.azureMonitor c)).1.createTraceExporter lg'
          (ExporterConfig.azureMonitor c')).2 = Except.ok e2) ∧
      e2.transportChannel = e1.transportChannel :=
  ⟨rfl, rfl, newTraceExporter c (mkTransportChannel c lg) lg,
   newTraceExporter c' (mkTransportChannel c lg) lg', rfl, rfl, rfl⟩

/-- Claim C9: the diagnostics message listener is never attached when the
logger is not at debug verbosity; attachment happens at most once, only when
the channel is constructed — a cached channel is returned untouched — and
the attached callback forwards each message to the logger at debug level,
returning nil. -/
theorem claim9_diagnostics_gate (exporterConfig : Config) (logger : Logger)
    (f : factory) (ch : TransportChannel) (msg : String)
    (hdbg : logger.debugEnabled = false)
    (hcached : f.tChannel = some ch) :
    (((factory.mk none).getTransportChannel exporterConfig
        logger).1.diagnosticsListener = none) ∧
    (f.getTransportChannel exporterConfig logger).1 = ch ∧
    diagnosticsMessageHandler msg =
      ({ level := LogLevel.debug, msg := msg }, none) := by
  refine ⟨?_, ?_, rfl⟩
  · simp [factory.getTransportChannel, mkTransportChannel, hdbg]
  · simp [factory.getTransportChannel, hcached]

/-- Claim C9 witness: with a non-debug logger no listener is attached, a
factory holding a cached channel returns it unchanged, and the handler
forwards at debug level. -/
theorem claim9_diagnostics_gate_witness :
    exLogger.debugEnabled = false ∧
    (factory.mk (some exChannel)).tChannel = some exChannel ∧
    ((((factory.mk none).getTransportChannel exConfig
        exLogger).1.diagnosticsListener = none) ∧
     ((factory.mk (some exChannel)).getTransportChannel exConfig
        exLogger).1 = exChannel ∧
     diagnosticsMessageHandler "m" =
       ({ level := LogLevel.debug, msg := "m" }, none)) :=
  ⟨rfl, rfl,
   claim9_diagnostics_gate exConfig exLogger (factory.mk (some exChannel))
     exChannel "m" rfl rfl⟩

/-- Claim C10: once a channel is cached the config and logger arguments of
`getTransportChannel` have no effect (the cached channel is returned and the
factory is unchanged); consequently after a first `createTraceExporter` call
the channel obtained by any second call has its instrumentation key,
endpoint, max batch size, max batch interval and diagnostics-listener
attachment determined solely by the first call's config and logger. -/
theorem claim10_cached_channel_frame (f : factory) (ch : TransportChannel)
    (c1 c2 : Config) (lg1 lg2 : Logger)
    (hcached : f.tChannel = some ch) :
    f.getTransportChannel c2 lg2 = (ch, f) ∧
    ∃ e2,
      ((((factory.mk none).createTraceExporter lg1
          (ExporterConfig.azureMonitor c1)).1.createTraceExporter lg2
          (ExporterConfig.azureMonitor c2)).2 = Except.ok e2) ∧
      e2.transportChannel.instrumentationKey = c1.instrumentationKey ∧
      e2.transportChannel.endpointUrl = c1.endpoint ∧
      e2.transportChannel.maxBatchSize = c1.maxBatchSize ∧
      e2.transportChannel.maxBatchInterval = c1.maxBatchInterval ∧
      (e2.transportChannel.diagnosticsListener ≠ none ↔
        lg1.debugEnabled = true) := by
  constructor
  · simp [factory.getTransportChannel, hcached]
  · refine ⟨newTraceExporter c2 (mkTransportChannel c1 lg1) lg2,
      rfl, rfl, rfl, rfl, rfl, ?_⟩
    by_cases h : lg1.debugEnabled <;>
      simp [newTraceExporter, mkTransportChannel, h]

/-- Claim C10 witness: a factory caching the example channel ignores a
different config and a debug logger on the next call, and a second create
call after a first one with `exConfig` yields an exporter whose channel
still carries `exConfig`'s key/endpoint/batching and no listener. -/
theorem claim10_cached_channel_frame_witness :
    (factory.mk (some exChannel)).tChannel = some exChannel ∧
    ((factory.mk (some exChannel)).getTransportChannel createDefaultConfig
        { debugEnabled := true } = (exChannel, factory.mk (some exChannel)) ∧
     ∃ e2,
       ((((factory.mk none).createTraceExporter exLogger
           (ExporterConfig.azureMonitor exConfig)).1.createTraceExporter
           { debugEnabled := true }
           (ExporterConfig.azureMonitor createDefaultConfig)).2 =
         Except.ok e2) ∧
       e2.transportChannel.instrumentationKey = exConfig.instrumentationKey ∧
       e2.transportChannel.endpointUrl = exConfig.endpoint ∧
       e2.transportChannel.maxBatchSize = exConfig.maxBatchSize ∧
       e2.transportChannel.maxBatchInterval = exConfig.maxBatchInterval ∧
       (e2.transportChannel.diagnosticsListener ≠ none ↔
         exLogger.debugEnabled = true)) :=
  ⟨rfl,
   claim10_cached_channel_frame (factory.mk (some exChannel)) exChannel
     exConfig createDefaultConfig exLogger { debugEnabled := true } rfl⟩
